import Mathlib

/-!
Verification of the pagination control in `src/NewPagination.tsx`.

The algorithmic core of the component is embedded shallowly:

* `calculatePage` — the total-page computation (source lines 31–34).
  JavaScript's `Math.floor((total - 1) / pageSize)` on integer inputs with
  `pageSize ≠ 0` is exactly floored integer division, i.e. `Int.fdiv`.
  (For `pageSize = 0` JavaScript produces `±Infinity`/`NaN`; that case is
  outside this integer model and every theorem below assumes an integer,
  non-zero effective page size.)  The TypeScript function also takes an
  optional first argument `p` and uses `p` as the effective page size when
  it is defined; both call sites resolve that choice statically, so the
  embedding takes the effective page size directly.
* `buildPagerList` — the page-marker sequence construction
  (source lines 384–494), split into the small branch (`allPages ≤ 3 + 2b`)
  and the large branch with window, jump markers and boundary pages.
* `handleChange`, `prevHandle`, `nextHandle`, `jumpPrevHandle`,
  `jumpNextHandle` — the guarded page-change handlers (lines 194–235).
* `postState` — the merged-state clamp (line 86).
* `changePageSize` — the page-size change transition (lines 178–192).
* `warningFires` — the development-time warning condition (lines 92–100);
  `rc-util`'s `warning(valid, msg)` prints the warning exactly when `valid`
  is false.
* `hiddenOnSinglePage` (lines 316–319) and `showSizeChanger` (lines 218–219).
-/

/-- Total page count, source lines 31–34:
`Math.floor((total - 1) / pageSize) + 1` with `pageSize` the effective page
size (the optional first argument when defined, else the second). -/
def calculatePage (pageSize total : ℤ) : ℤ :=
  (total - 1).fdiv pageSize + 1

/-- Source line 385: `const pageBufferSize = showLessItems ? 1 : 2;`. -/
def pageBufferSize (showLessItems : Bool) : ℤ :=
  if showLessItems then 1 else 2

/-- Source line 102: `Math.max(1, current - (showLessItems ? 3 : 5))`. -/
def jumpPrevPage (showLessItems : Bool) (current : ℤ) : ℤ :=
  max 1 (current - (if showLessItems then 3 else 5))

/-- Source lines 103–106:
`Math.min(calculatePage(undefined, pageSize, total), current + (showLessItems ? 3 : 5))`;
`allPages` is the value of that `calculatePage` call. -/
def jumpNextPage (showLessItems : Bool) (current allPages : ℤ) : ℤ :=
  min allPages (current + (if showLessItems then 3 else 5))

/-- A page marker of the rendered sequence: a numbered pager item, or one of
the two jump ("ellipsis") markers.  Per the data model the identity of a
marker is its `(tag, page)` pair; active/disabled styling is not part of it. -/
inductive PageMarker where
  | num (page : ℤ)
  | jumpPrev
  | jumpNext
deriving DecidableEq, Repr

/-- The list of integers `lo, lo+1, …, hi` (empty when `hi < lo`), as built by
the `for (let i = left; i <= right; i += 1)` loops of the source. -/
def intRange (lo hi : ℤ) : List ℤ :=
  (List.range (hi + 1 - lo).toNat).map (fun i : ℕ => lo + (i : ℤ))

/-- Source lines 450, 456–458: `left = Math.max(1, current - pageBufferSize)`,
then the end-pin correction `if (allPages - current <= pageBufferSize) left =
allPages - pageBufferSize * 2`. -/
def windowLeft (current allPages b : ℤ) : ℤ :=
  if allPages - current ≤ b then allPages - b * 2 else max 1 (current - b)

/-- Source lines 451, 453–455: `right = Math.min(current + pageBufferSize,
allPages)`, then the start-pin correction `if (current - 1 <= pageBufferSize)
right = 1 + pageBufferSize * 2`. -/
def windowRight (current allPages b : ℤ) : ℤ :=
  if current - 1 ≤ b then 1 + b * 2 else min (current + b) allPages

/-- Small branch, source lines 386–402: when `allPages = 0` a single disabled
pager for page 1 is pushed (`!allPages` is true in JS exactly at 0), then the
loop pushes a pager for every page `1 … allPages`. -/
def smallPagerList (allPages : ℤ) : List PageMarker :=
  (if allPages = 0 then [PageMarker.num 1] else []) ++
    (intRange 1 allPages).map PageMarker.num

/-- Large branch, source lines 403–493.  The window `left … right` is emitted;
the jump-prev marker is unshifted in front of it when
`current - 1 >= pageBufferSize * 2 && current !== 1 + 2`, the jump-next marker
is pushed after it under the symmetric condition; finally page 1 is unshifted
when `left !== 1` and page `allPages` pushed when `right !== allPages`.
When `showJumpers` (source `showPrevNextJumpers`) is false the source inserts
`null` in place of a jump element, which renders to nothing, so the model
inserts nothing.  The `cloneElement` calls only add styling class names and do
not affect marker identity. -/
def bigPagerList (current allPages b : ℤ) (showJumpers : Bool) : List PageMarker :=
  (if windowLeft current allPages b ≠ 1 then [PageMarker.num 1] else []) ++
  ((if b * 2 ≤ current - 1 ∧ current ≠ 3 then
      (if showJumpers then [PageMarker.jumpPrev] else []) else []) ++
    ((intRange (windowLeft current allPages b) (windowRight current allPages b)).map
        PageMarker.num ++
      ((if b * 2 ≤ allPages - current ∧ current ≠ allPages - 2 then
          (if showJumpers then [PageMarker.jumpNext] else []) else []) ++
        (if windowRight current allPages b ≠ allPages then [PageMarker.num allPages]
         else []))))

/-- The produced page-marker sequence, source lines 384–494: the small branch
when `allPages <= 3 + pageBufferSize * 2`, the sliding-window branch
otherwise. -/
def buildPagerList (current allPages b : ℤ) (showJumpers : Bool) : List PageMarker :=
  if allPages ≤ 3 + b * 2 then smallPagerList allPages
  else bigPagerList current allPages b showJumpers

/-- The page numbers occurring in a marker sequence, in order. -/
def pageNums (l : List PageMarker) : List ℤ :=
  l.filterMap (fun m => match m with | PageMarker.num p => some p | _ => none)

/-- Source line 142: `isInteger(page) && page !== current && isInteger(total)
&& total > 0`.  In this integer embedding the `isInteger` checks always hold. -/
def isValidPage (page current total : ℤ) : Prop :=
  page ≠ current ∧ 0 < total

instance (page current total : ℤ) : Decidable (isValidPage page current total) :=
  inferInstanceAs (Decidable (_ ∧ _))

/-- Source lines 194–214: `handleChange(page)` returns the page the control
ends on.  When valid and not disabled, the candidate is clamped to
`[1, calculatePage pageSize total]` and stored via `setCurrent`; the stored
value then passes `postState`, which is the identity here because the clamped
page never exceeds the total-page count (total > 0 inside the guard).
Otherwise the current page is returned unchanged and no state is touched. -/
def handleChange (page current pageSize total : ℤ) (disabled : Bool) : ℤ :=
  if isValidPage page current total ∧ disabled = false then
    if page > calculatePage pageSize total then calculatePage pageSize total
    else if page < 1 then 1 else page
  else current

/-- Source lines 216, 221–223: `hasPrev = current > 1`; `prevHandle` calls
`handleChange(current - 1)` only when `hasPrev`. -/
def prevHandle (current pageSize total : ℤ) (disabled : Bool) : ℤ :=
  if 1 < current then handleChange (current - 1) current pageSize total disabled
  else current

/-- Source lines 217, 225–227: `hasNext = current < calculatePage(...)`;
`nextHandle` calls `handleChange(current + 1)` only when `hasNext`. -/
def nextHandle (current pageSize total : ℤ) (disabled : Bool) : ℤ :=
  if current < calculatePage pageSize total then
    handleChange (current + 1) current pageSize total disabled
  else current

/-- Source lines 229–231: `jumpPrevHandle` calls `handleChange(jumpPrevPage)`
unconditionally. -/
def jumpPrevHandle (showLessItems : Bool) (current pageSize total : ℤ)
    (disabled : Bool) : ℤ :=
  handleChange (jumpPrevPage showLessItems current) current pageSize total disabled

/-- Source lines 233–235: `jumpNextHandle` calls `handleChange(jumpNextPage)`
unconditionally. -/
def jumpNextHandle (showLessItems : Bool) (current pageSize total : ℤ)
    (disabled : Bool) : ℤ :=
  handleChange (jumpNextPage showLessItems current (calculatePage pageSize total))
    current pageSize total disabled

/-- Source line 86: `postState: (c) => Math.min(c, calculatePage(pageSize,
undefined, total))` — the clamp applied to the merged current-page value on
every evaluation.  Note there is no `Math.max(1, …)` around it. -/
def postState (c pageSize total : ℤ) : ℤ :=
  min c (calculatePage pageSize total)

/-- Result of a page-size change: the reported current page, the stored page
size, and the arguments passed to the two notification callbacks. -/
structure SizeChangeResult where
  nextCurrent : ℤ
  storedPageSize : ℤ
  onChangeCall : ℤ × ℤ
  onShowSizeChangeCall : ℤ × ℤ
deriving DecidableEq, Repr

/-- Source lines 178–192: `changePageSize(size)` computes
`newCurrent = calculatePage(size, pageSize, total)` (effective page size
`size`), adopts it only when `current > newCurrent && newCurrent !== 0`,
always stores the new page size, and always calls both `onChange` and
`onShowSizeChange` with `(nextCurrent, size)`. -/
def changePageSize (size current total : ℤ) : SizeChangeResult :=
  let newCurrent := calculatePage size total
  let nextCurrent := if current > newCurrent ∧ newCurrent ≠ 0 then newCurrent else current
  { nextCurrent := nextCurrent
    storedPageSize := size
    onChangeCall := (nextCurrent, size)
    onShowSizeChangeCall := (nextCurrent, size) }

/-- Source lines 92–100: `warning(hasCurrent && hasOnChange, …)` where
`hasOnChange = onChange !== noop` and `hasCurrent = 'current' in props`.
`rc-util`'s `warning(valid, message)` surfaces the message exactly when
`valid` is false (development builds only, via `console.error`, never
thrown). -/
def warningFires (hasCurrent hasOnChange : Bool) : Bool :=
  !(hasCurrent && hasOnChange)

/-- Source lines 316–319: `if (hideOnSinglePage && total <= pageSize) return
null;` — true exactly when the control renders nothing. -/
def hiddenOnSinglePage (hideOnSinglePage : Bool) (total pageSize : ℤ) : Bool :=
  hideOnSinglePage && decide (total ≤ pageSize)

/-- Source line 61: default value of the `totalBoundaryShowSizeChanger` prop. -/
def totalBoundaryDefault : ℤ := 50

/-- Source lines 218–219: `showSizeChanger = showSizeChangerProp ?? total >
totalBoundaryShowSizeChanger`; when true the size-selector receives the live
`changePageSize` handler (line 565), otherwise `null`. -/
def showSizeChanger (prop : Option Bool) (total threshold : ℤ) : Bool :=
  match prop with
  | some b => b
  | none => decide (threshold < total)

/-! ### Arithmetic facts about `calculatePage` -/

/-- Floored-division characterisation used throughout: for a positive divisor,
`fdiv` is the unique `q` with `ps * q ≤ x < ps * (q + 1)`. -/
theorem fdiv_bounds (x ps : ℤ) (hps : 0 < ps) :
    ps * x.fdiv ps ≤ x ∧ x < ps * (x.fdiv ps + 1) := by
  have h := Int.fdiv_add_fmod x ps
  have h1 : 0 ≤ x.fmod ps := Int.fmod_nonneg' x hps
  have h2 : x.fmod ps < ps := Int.fmod_lt_of_pos x hps
  constructor
  · omega
  · have : ps * (x.fdiv ps + 1) = ps * x.fdiv ps + ps := by ring
    omega

theorem fdiv_unique (x ps q : ℤ) (hps : 0 < ps)
    (hlo : ps * q ≤ x) (hhi : x < ps * (q + 1)) : x.fdiv ps = q := by
  obtain ⟨h1, h2⟩ := fdiv_bounds x ps hps
  rcases lt_trichotomy (x.fdiv ps) q with h | h | h
  · exfalso
    have hq : x.fdiv ps + 1 ≤ q := by omega
    have := mul_le_mul_of_nonneg_left hq (le_of_lt hps)
    omega
  · exact h
  · exfalso
    have hq : q + 1 ≤ x.fdiv ps := by omega
    have := mul_le_mul_of_nonneg_left hq (le_of_lt hps)
    omega

theorem calculatePage_le_iff (ps total k : ℤ) (hps : 0 < ps) :
    calculatePage ps total ≤ k ↔ total - 1 < ps * k := by
  unfold calculatePage
  obtain ⟨h1, h2⟩ := fdiv_bounds (total - 1) ps hps
  constructor
  · intro h
    have hq : (total - 1).fdiv ps + 1 ≤ k := by omega
    have := mul_le_mul_of_nonneg_left hq (le_of_lt hps)
    omega
  · intro h
    by_contra hc
    have hq : k ≤ (total - 1).fdiv ps := by omega
    have := mul_le_mul_of_nonneg_left hq (le_of_lt hps)
    omega

theorem calculatePage_eq_iff (ps total k : ℤ) (hps : 0 < ps) :
    calculatePage ps total = k ↔ ps * (k - 1) ≤ total - 1 ∧ total - 1 < ps * k := by
  unfold calculatePage
  constructor
  · intro h
    have hq : (total - 1).fdiv ps = k - 1 := by omega
    obtain ⟨h1, h2⟩ := fdiv_bounds (total - 1) ps hps
    rw [hq] at h1 h2
    constructor
    · exact h1
    · have : k - 1 + 1 = k := by ring
      rw [this] at h2
      exact h2
  · intro ⟨hlo, hhi⟩
    have : total - 1 < ps * (k - 1 + 1) := by
      have : k - 1 + 1 = k := by ring
      rw [this]
      exact hhi
    have := fdiv_unique (total - 1) ps (k - 1) hps hlo this
    omega

theorem calculatePage_pos (ps total : ℤ) (hps : 0 < ps) (htot : 1 ≤ total) :
    1 ≤ calculatePage ps total := by
  unfold calculatePage
  have := Int.fdiv_nonneg (a := total - 1) (b := ps) (by omega) (le_of_lt hps)
  omega

theorem calculatePage_zero (ps : ℤ) (hps : 0 < ps) : calculatePage ps 0 = 0 := by
  rw [calculatePage_eq_iff ps 0 0 hps]
  constructor
  · have : ps * (0 - 1) = -ps := by ring
    omega
  · have : ps * (0 : ℤ) = 0 := by ring
    omega

/-! ### List-level facts about the marker sequence -/

theorem mem_intRange {lo hi x : ℤ} : x ∈ intRange lo hi ↔ lo ≤ x ∧ x ≤ hi := by
  unfold intRange
  rw [List.mem_map]
  constructor
  · rintro ⟨i, hi', rfl⟩
    rw [List.mem_range] at hi'
    omega
  · intro ⟨h1, h2⟩
    refine ⟨(x - lo).toNat, ?_, by omega⟩
    rw [List.mem_range]
    omega

theorem nodup_intRange (lo hi : ℤ) : (intRange lo hi).Nodup := by
  unfold intRange
  apply List.Nodup.map
  · intro a b h
    simp only at h
    omega
  · exact List.nodup_range _

theorem pageNums_append (l1 l2 : List PageMarker) :
    pageNums (l1 ++ l2) = pageNums l1 ++ pageNums l2 := by
  unfold pageNums
  exact List.filterMap_append l1 l2 _

theorem pageNums_map_num (l : List ℤ) : pageNums (l.map PageMarker.num) = l := by
  induction l with
  | nil => rfl
  | cons a t ih =>
    simp only [List.map_cons, pageNums, List.filterMap_cons] at *
    rw [ih]

theorem pageNums_nil : pageNums [] = [] := rfl

theorem pageNums_cons_num (p : ℤ) (t : List PageMarker) :
    pageNums (PageMarker.num p :: t) = p :: pageNums t := rfl

theorem pageNums_cons_jumpPrev (t : List PageMarker) :
    pageNums (PageMarker.jumpPrev :: t) = pageNums t := rfl

theorem pageNums_cons_jumpNext (t : List PageMarker) :
    pageNums (PageMarker.jumpNext :: t) = pageNums t := rfl

/-- The page numbers of the large-branch sequence: an optional leading `1`,
the window, and an optional trailing `allPages`. -/
theorem pageNums_bigPagerList (current allPages b : ℤ) (sj : Bool) :
    pageNums (bigPagerList current allPages b sj) =
      (if windowLeft current allPages b ≠ 1 then [1] else []) ++
        (intRange (windowLeft current allPages b) (windowRight current allPages b) ++
          (if windowRight current allPages b ≠ allPages then [allPages] else [])) := by
  unfold bigPagerList
  cases sj <;>
    split_ifs <;>
      simp_all [pageNums_append, pageNums_map_num, pageNums_nil, pageNums_cons_num,
        pageNums_cons_jumpPrev, pageNums_cons_jumpNext]

theorem windowLeft_facts (current allPages b : ℤ) (hb : 1 ≤ b)
    (h1 : 1 ≤ current) (h2 : current ≤ allPages) (hbig : 3 + b * 2 < allPages) :
    1 ≤ windowLeft current allPages b ∧ windowLeft current allPages b ≤ current := by
  unfold windowLeft
  split_ifs <;> omega

theorem windowRight_facts (current allPages b : ℤ) (hb : 1 ≤ b)
    (_h1 : 1 ≤ current) (h2 : current ≤ allPages) (hbig : 3 + b * 2 < allPages) :
    current ≤ windowRight current allPages b ∧
      windowRight current allPages b ≤ allPages := by
  unfold windowRight
  split_ifs <;> omega

/-! ### Claims -/

/-- C1 counterexample: for `total=500, pageSize=10, currentPage=1` and
`bufferSize = 2` (showLessItems false) the code's start-pinned window is
`1 … 1 + 2*2 = 5`, so the produced sequence is NOT
`[1, 2, 3, JumpNext, 50]` as the claim states. -/
theorem claim_C1_counterexample :
    calculatePage 10 500 = 50 ∧
    buildPagerList 1 (calculatePage 10 500) (pageBufferSize false) true ≠
      [PageMarker.num 1, PageMarker.num 2, PageMarker.num 3,
       PageMarker.jumpNext, PageMarker.num 50] := by
  decide

/-- C1 (amended): for `total=500, pageSize=10, currentPage=1, bufferSize=2`
(showLessItems false) the total-page count is 50 and the produced sequence is
exactly `[1, 2, 3, 4, 5, JumpNext, 50]` — the start-pinned window runs to
`1 + 2*bufferSize = 5`.  (The claimed `[1, 2, 3, JumpNext, 50]` is what
`bufferSize = 1` produces.) -/
theorem claim_C1 :
    calculatePage 10 500 = 50 ∧
    buildPagerList 1 (calculatePage 10 500) (pageBufferSize false) true =
      [PageMarker.num 1, PageMarker.num 2, PageMarker.num 3, PageMarker.num 4,
       PageMarker.num 5, PageMarker.jumpNext, PageMarker.num 50] := by
  decide

/-- C2 counterexample: `total = -15 < 0` with `pageSize = 10` gives
`calculatePage = Math.floor(-16/10) + 1 = -1`, not `0` as the claim states
for every configuration with negative total. -/
theorem claim_C2_counterexample :
    (-15 : ℤ) < 0 ∧ calculatePage 10 (-15) = -1 ∧ calculatePage 10 (-15) ≠ 0 := by
  decide

/-- C2 (amended): for every `total ≤ 0` (any current page, any disabled
flag) the prev/next and jump handlers never change the current page (the
`isValid` guard inside `handleChange` requires `total > 0`); and, for
`pageSize ≥ 1`, the computed total-page count is 0 exactly on the portion
`1 - pageSize ≤ total` of that range. -/
theorem claim_C2 (current pageSize total : ℤ) (sli disabled : Bool)
    (hps : 1 ≤ pageSize) (hhi : total ≤ 0) :
    (1 - pageSize ≤ total → calculatePage pageSize total = 0) ∧
    prevHandle current pageSize total disabled = current ∧
    nextHandle current pageSize total disabled = current ∧
    jumpPrevHandle sli current pageSize total disabled = current ∧
    jumpNextHandle sli current pageSize total disabled = current := by
  have hnc : ∀ page, handleChange page current pageSize total disabled = current := by
    intro page
    unfold handleChange
    rw [if_neg]
    rintro ⟨⟨_, h⟩, _⟩
    omega
  refine ⟨?_, ?_, ?_, hnc _, hnc _⟩
  · intro hlo
    rw [calculatePage_eq_iff _ _ 0 (by omega)]
    have e1 : pageSize * ((0 : ℤ) - 1) = -pageSize := by ring
    have e2 : pageSize * (0 : ℤ) = 0 := by ring
    omega
  · unfold prevHandle
    split_ifs <;> simp [hnc]
  · unfold nextHandle
    split_ifs <;> simp [hnc]

/-- C2 witness: concrete degenerate configuration `total = 0, pageSize = 10`,
where the total-page-count implication is non-vacuous. -/
theorem claim_C2_witness :
    ((1 : ℤ) ≤ 10 ∧ (0 : ℤ) ≤ 0) ∧
    (((1 : ℤ) - 10 ≤ 0 → calculatePage 10 0 = 0) ∧
     prevHandle 1 10 0 false = 1 ∧
     nextHandle 1 10 0 false = 1 ∧
     jumpPrevHandle false 1 10 0 false = 1 ∧
     jumpNextHandle false 1 10 0 false = 1) :=
  ⟨by decide, claim_C2 1 10 0 false false (by decide) (by decide)⟩

/-- C3 counterexample: the code's `postState` is `min(c, totalPages)` with no
floor of 1.  At `total = 0, pageSize = 10` and previous page 1 the stored
current page becomes `min(1, 0) = 0`, while the claimed formula
`max(1, min(c, totalPages))` — "clamped to 1" — demands 1. -/
theorem claim_C3_counterexample :
    postState 1 10 0 = 0 ∧
    max 1 (min 1 (calculatePage 10 0)) = 1 ∧
    postState 1 10 0 ≠ max 1 (min 1 (calculatePage 10 0)) := by
  decide

/-- C3 (amended): the stored current page after an external total/page-size
change is `min(previous, totalPages)` with NO floor of 1; consequently the
invariant `1 ≤ currentPage ≤ totalPages` holds whenever `totalPages ≥ 1` AND
the previous page was ≥ 1.  (When `totalPages = 0` the stored page becomes
`min(previous, 0) ≤ 0`, not 1 — see the counterexample.) -/
theorem claim_C3 (c pageSize total : ℤ) (hc : 1 ≤ c)
    (htp : 1 ≤ calculatePage pageSize total) :
    postState c pageSize total = min c (calculatePage pageSize total) ∧
    1 ≤ postState c pageSize total ∧
    postState c pageSize total ≤ calculatePage pageSize total := by
  unfold postState
  omega

/-- C3 witness: `total = 25, pageSize = 10` (3 pages), previous page 5 —
the stored page becomes `min(5, 3) = 3`. -/
theorem claim_C3_witness :
    ((1 : ℤ) ≤ 5 ∧ 1 ≤ calculatePage 10 25) ∧
    (postState 5 10 25 = min 5 (calculatePage 10 25) ∧
     1 ≤ postState 5 10 25 ∧
     postState 5 10 25 ≤ calculatePage 10 25) :=
  ⟨by decide, claim_C3 5 10 25 (by decide) (by decide)⟩

/-- C4: evaluation of the development-time warning condition at all four
configurations.  The code passes `hasCurrent && hasOnChange` as the validity
argument, so the warning fires whenever NOT both a controlled `current` and a
real `onChange` are supplied — in particular it fires for perfectly valid
uncontrolled configurations (first two conjuncts), and does NOT fire in the
one additional case the claim allows (controlled with handler, last conjunct).
The claim (and the warning's own message text) say it should fire only when
`current` is supplied without `onChange` (third conjunct). -/
theorem claim_C4_code_eval :
    warningFires false true = true ∧
    warningFires false false = true ∧
    warningFires true false = true ∧
    warningFires true true = false := by
  decide

/-- C5: `SetPageSize(newSize)` adopts the fallback page
`calculatePage(newSize, total)` exactly when it is strictly smaller than the
existing current page and non-zero, always stores the new page size, and
always invokes both notifications with `(nextCurrent, newSize)`; in the
concrete Scenario D (`total=500, currentPage=50, pageSize=10`,
`SetPageSize(20)`) the new total-page count is 25 and the new current page
is 25. -/
theorem claim_C5 :
    (∀ size current total : ℤ,
      (changePageSize size current total).nextCurrent =
        (if calculatePage size total < current ∧ calculatePage size total ≠ 0
         then calculatePage size total else current) ∧
      (changePageSize size current total).storedPageSize = size ∧
      (changePageSize size current total).onChangeCall =
        ((changePageSize size current total).nextCurrent, size) ∧
      (changePageSize size current total).onShowSizeChangeCall =
        ((changePageSize size current total).nextCurrent, size)) ∧
    calculatePage 20 500 = 25 ∧
    (changePageSize 20 50 500).nextCurrent = 25 := by
  refine ⟨?_, by decide, by decide⟩
  intro size current total
  exact ⟨rfl, rfl, rfl, rfl⟩

/-- C6: in the large-page-count branch with jumpers shown, a `JumpPrev`
marker is emitted iff `currentPage - 1 ≥ 2*bufferSize` and `currentPage ≠ 3`
(symmetrically `JumpNext` iff `totalPages - currentPage ≥ 2*bufferSize` and
`currentPage ≠ totalPages - 2`), and the activation targets are
`max(1, current - d)` resp. `min(totalPages, current + d)` with `d = 3` in
compact mode (`showLessItems`) and `5` otherwise. -/
theorem claim_C6 (current allPages : ℤ) (sli : Bool)
    (hbig : 3 + pageBufferSize sli * 2 < allPages) :
    (PageMarker.jumpPrev ∈ buildPagerList current allPages (pageBufferSize sli) true ↔
      pageBufferSize sli * 2 ≤ current - 1 ∧ current ≠ 3) ∧
    (PageMarker.jumpNext ∈ buildPagerList current allPages (pageBufferSize sli) true ↔
      pageBufferSize sli * 2 ≤ allPages - current ∧ current ≠ allPages - 2) ∧
    jumpPrevPage sli current = max 1 (current - (if sli then 3 else 5)) ∧
    jumpNextPage sli current allPages = min allPages (current + (if sli then 3 else 5)) := by
  refine ⟨?_, ?_, rfl, rfl⟩ <;>
  · rw [buildPagerList, if_neg (by omega)]
    unfold bigPagerList
    split_ifs <;>
      simp_all [List.mem_append, List.mem_map] <;>
        tauto

/-- C6 witness: `currentPage = 10, totalPages = 50`, normal (non-compact)
mode. -/
theorem claim_C6_witness :
    3 + pageBufferSize false * 2 < (50 : ℤ) ∧
    ((PageMarker.jumpPrev ∈ buildPagerList 10 50 (pageBufferSize false) true ↔
       pageBufferSize false * 2 ≤ (10 : ℤ) - 1 ∧ (10 : ℤ) ≠ 3) ∧
     (PageMarker.jumpNext ∈ buildPagerList 10 50 (pageBufferSize false) true ↔
       pageBufferSize false * 2 ≤ (50 : ℤ) - 10 ∧ (10 : ℤ) ≠ (50 : ℤ) - 2) ∧
     jumpPrevPage false 10 = max 1 (10 - (if false then 3 else 5)) ∧
     jumpNextPage false 10 50 = min 50 (10 + (if false then 3 else 5))) :=
  ⟨by decide, claim_C6 10 50 false (by decide)⟩

/-- C7: for every valid state (`1 ≤ currentPage ≤ totalPages`, buffer size 1
or 2) the produced marker sequence has pairwise-distinct page numbers (so
pages 1 and `totalPages` each appear at most once) and contains `currentPage`
exactly once. -/
theorem claim_C7 (current allPages b : ℤ) (sj : Bool) (hb : b = 1 ∨ b = 2)
    (h1 : 1 ≤ current) (h2 : current ≤ allPages) :
    (pageNums (buildPagerList current allPages b sj)).Nodup ∧
    (pageNums (buildPagerList current allPages b sj)).count current = 1 := by
  have hb1 : 1 ≤ b := by omega
  by_cases hsmall : allPages ≤ 3 + b * 2
  · rw [buildPagerList, if_pos hsmall]
    unfold smallPagerList
    rw [if_neg (by omega), List.nil_append, pageNums_map_num]
    refine ⟨nodup_intRange _ _, ?_⟩
    apply List.count_eq_one_of_mem (nodup_intRange _ _)
    rw [mem_intRange]
    omega
  · rw [buildPagerList, if_neg hsmall, pageNums_bigPagerList]
    obtain ⟨hL1, hLc⟩ := windowLeft_facts current allPages b hb1 h1 h2 (by omega)
    obtain ⟨hcR, hRa⟩ := windowRight_facts current allPages b hb1 h1 h2 (by omega)
    have hnd : ((if windowLeft current allPages b ≠ 1 then [(1 : ℤ)] else []) ++
        (intRange (windowLeft current allPages b) (windowRight current allPages b) ++
          (if windowRight current allPages b ≠ allPages then [allPages] else []))).Nodup := by
      split_ifs with hA hB hB <;>
        simp [List.nodup_append, List.nodup_cons, mem_intRange, nodup_intRange,
          List.disjoint_left, List.mem_append] <;>
          omega
    refine ⟨hnd, List.count_eq_one_of_mem hnd ?_⟩
    refine List.mem_append.mpr (Or.inr (List.mem_append.mpr (Or.inl ?_)))
    rw [mem_intRange]
    exact ⟨hLc, hcR⟩

/-- C7 witness: `currentPage = 25, totalPages = 50, bufferSize = 2`. -/
theorem claim_C7_witness :
    ((2 : ℤ) = 1 ∨ (2 : ℤ) = 2) ∧ (1 : ℤ) ≤ 25 ∧ (25 : ℤ) ≤ 50 ∧
    ((pageNums (buildPagerList 25 50 2 true)).Nodup ∧
     (pageNums (buildPagerList 25 50 2 true)).count 25 = 1) :=
  ⟨by decide, by decide, by decide, claim_C7 25 50 2 true (by decide) (by decide) (by decide)⟩

/-- Floored integer division by a positive divisor coincides with the real
(rational) floor of the quotient — this is what ties `Int.fdiv` to the
claim's `floor((total - 1) / pageSize)`. -/
theorem fdiv_eq_floor (x ps : ℤ) (hps : 0 < ps) :
    x.fdiv ps = ⌊(x : ℚ) / (ps : ℚ)⌋ := by
  symm
  rw [Int.floor_eq_iff]
  have hps' : (0 : ℚ) < (ps : ℚ) := by exact_mod_cast hps
  obtain ⟨h1, h2⟩ := fdiv_bounds x ps hps
  constructor
  · rw [le_div_iff₀ hps']
    have hq : ((ps * x.fdiv ps : ℤ) : ℚ) ≤ ((x : ℤ) : ℚ) := by exact_mod_cast h1
    push_cast at hq ⊢
    linarith
  · rw [div_lt_iff₀ hps']
    have hq : ((x : ℤ) : ℚ) < ((ps * (x.fdiv ps + 1) : ℤ) : ℚ) := by exact_mod_cast h2
    push_cast at hq ⊢
    linarith

/-- C8: for `total ≥ 1` and `pageSize ≥ 1` the total-page count is
`floor((total - 1) / pageSize) + 1` (real floor), `totalPages(0, pageSize) =
0`, and for `total ≥ 0` the count is zero exactly when `total = 0`. -/
theorem claim_C8 (pageSize total : ℤ) (hps : 1 ≤ pageSize) (htot : 0 ≤ total) :
    (1 ≤ total → calculatePage pageSize total =
      ⌊((total : ℚ) - 1) / (pageSize : ℚ)⌋ + 1) ∧
    calculatePage pageSize 0 = 0 ∧
    (calculatePage pageSize total = 0 ↔ total = 0) := by
  refine ⟨?_, calculatePage_zero _ (by omega), ?_⟩
  · intro _
    unfold calculatePage
    rw [fdiv_eq_floor _ _ (by omega)]
    push_cast
    ring_nf
  · rw [calculatePage_eq_iff _ _ 0 (by omega)]
    have e1 : pageSize * ((0 : ℤ) - 1) = -pageSize := by ring
    have e2 : pageSize * (0 : ℤ) = 0 := by ring
    omega

/-- C8 witness: `pageSize = 10, total = 25` gives 3 pages. -/
theorem claim_C8_witness :
    ((1 : ℤ) ≤ 10 ∧ (0 : ℤ) ≤ 25) ∧
    ((1 ≤ (25 : ℤ) → calculatePage 10 25 = ⌊((25 : ℚ) - 1) / (10 : ℚ)⌋ + 1) ∧
     calculatePage 10 0 = 0 ∧
     (calculatePage 10 25 = 0 ↔ (25 : ℤ) = 0)) :=
  ⟨by norm_num, claim_C8 10 25 (by norm_num) (by norm_num)⟩

/-- C9: with `hideOnSinglePage` set, the control renders nothing exactly when
`total ≤ pageSize`, and (for a positive page size) that condition is exactly
"at most one page": `calculatePage pageSize total ≤ 1`. -/
theorem claim_C9 (hide : Bool) (total pageSize : ℤ) (hps : 1 ≤ pageSize) :
    (hiddenOnSinglePage hide total pageSize = true ↔
      hide = true ∧ total ≤ pageSize) ∧
    (total ≤ pageSize ↔ calculatePage pageSize total ≤ 1) := by
  constructor
  · unfold hiddenOnSinglePage
    simp
  · rw [calculatePage_le_iff _ _ 1 (by omega)]
    have e1 : pageSize * (1 : ℤ) = pageSize := by ring
    omega

/-- C9 witness: `hideOnSinglePage = true, total = 30, pageSize = 50` — one
page, control hidden. -/
theorem claim_C9_witness :
    (1 : ℤ) ≤ 50 ∧
    ((hiddenOnSinglePage true 30 50 = true ↔ true = true ∧ (30 : ℤ) ≤ 50) ∧
     ((30 : ℤ) ≤ 50 ↔ calculatePage 50 30 ≤ 1)) :=
  ⟨by decide, claim_C9 true 30 50 (by decide)⟩

/-- C10: when the show-size-changer prop is not supplied, the page-size
selector is offered iff `total` strictly exceeds the threshold, whose default
is 50; an explicitly supplied boolean overrides the threshold entirely. -/
theorem claim_C10 :
    (∀ total : ℤ, showSizeChanger none total totalBoundaryDefault = true ↔
      totalBoundaryDefault < total) ∧
    (∀ (b : Bool) (total threshold : ℤ), showSizeChanger (some b) total threshold = b) ∧
    totalBoundaryDefault = 50 := by
  refine ⟨?_, fun b total threshold => rfl, rfl⟩
  intro total
  unfold showSizeChanger
  simp
